import Mathlib

/-!
Shallow embedding of `src/unnamed/part_000` (the GitHub Action
`ci-failure-sumarizer`, file `index.js`).

Part 1: the log-relevance extraction subsystem.

`extractRelevantLogs(logs, maxLines)` splits the raw log text on newlines,
scans every line against the `ERROR_KEYWORDS` regular expressions, collects a
context window of `CONTEXT_LINES = 5` lines around each match into a set of
kept indices, sorts them, inserts a single separator string between
non-consecutive kept indices, and truncates to the trailing `maxLines` lines
when over budget; it returns `null` when no line matched.

The 24 `ERROR_KEYWORDS` regexes all have the shape
`\b<literal>` optionally followed by the character class `[1-9]`
(only for `/\bexit code [1-9]/i`) and optionally a trailing `\b`;
17 of them carry the `/i` (ignore-case) flag and 7 do not.
Every literal starts and (for patterns with a trailing `\b`) ends with a
word character (`[A-Za-z0-9_]`), so the leading `\b` holds exactly when the
preceding character is absent or a non-word character, and the trailing `\b`
holds exactly when the following character is absent or a non-word character.
JavaScript `/i` on these ASCII-literal patterns is ASCII case folding.
-/

/-- `[A-Za-z0-9_]` test on a code point, the JavaScript regex word-character
class used by `\b`. -/
def isWordNat (n : Nat) : Bool :=
  decide ((97 ≤ n ∧ n ≤ 122) ∨ (65 ≤ n ∧ n ≤ 90) ∨ (48 ≤ n ∧ n ≤ 57) ∨ n = 95)

/-- ASCII lower-casing on code points: `A`-`Z` map to `a`-`z`. -/
def lowerNat (n : Nat) : Nat :=
  if 65 ≤ n ∧ n ≤ 90 then n + 32 else n

/-- ASCII lower-casing of a character, the canonicalisation JavaScript `/i`
performs on the ASCII-only literals of `ERROR_KEYWORDS`. -/
def asciiLower (c : Char) : Char :=
  if h : 65 ≤ c.toNat ∧ c.toNat ≤ 90 then
    Char.ofNatAux (c.toNat + 32) (Or.inl (by omega))
  else c

def isWordChar (c : Char) : Bool := isWordNat c.toNat

/-- `[1-9]` character-class test (for `/\bexit code [1-9]/i`). -/
def isDigit19 (c : Char) : Bool := decide (49 ≤ c.toNat ∧ c.toNat ≤ 57)

/-- One entry of `ERROR_KEYWORDS`: a literal to find at some position,
optionally followed by a `[1-9]` class, optionally with a trailing `\b`
word boundary; `ignoreCase` is the `/i` flag. All entries begin with `\b`. -/
structure KeywordPattern where
  lit : List Char
  digitClass : Bool
  wordEnd : Bool
  ignoreCase : Bool
  deriving DecidableEq

/-- Does line character `c` match pattern character `pc`? With `/i` both are
ASCII-lower-cased first. -/
def charMatches (ic : Bool) (pc c : Char) : Bool :=
  if ic then asciiLower c == asciiLower pc else c == pc

/-- Match the literal at the head of `s`; return the remaining characters. -/
def litMatch (ic : Bool) : List Char → List Char → Option (List Char)
  | [], s => some s
  | _ :: _, [] => none
  | pc :: ps, c :: cs => if charMatches ic pc c then litMatch ic ps cs else none

/-- Leading `\b`: all `ERROR_KEYWORDS` literals start with a word character,
so the boundary holds exactly when the previous character is absent or
a non-word character. -/
def prevOk : Option Char → Bool
  | none => true
  | some c => !isWordChar c

/-- Trailing `\b` when present: all literals carrying it end with a word
character, so it holds exactly when the next character is absent or
a non-word character. -/
def tailOk (wordEnd : Bool) : List Char → Bool
  | [] => true
  | c :: _ => !wordEnd || !isWordChar c

/-- Does pattern `p` match starting exactly at the position whose previous
character is `prev` and whose remaining text is `s`? -/
def matchHere (p : KeywordPattern) (prev : Option Char) (s : List Char) : Bool :=
  prevOk prev &&
    match litMatch p.ignoreCase p.lit s with
    | none => false
    | some rest =>
      if p.digitClass then
        match rest with
        | [] => false
        | c :: _ => isDigit19 c
      else tailOk p.wordEnd rest

/-- Scan all start positions, carrying the previous character for the `\b`
test: `RegExp.prototype.test` on the keyword patterns. -/
def scanMatch (p : KeywordPattern) (prev : Option Char) : List Char → Bool
  | [] => matchHere p prev []
  | c :: cs => matchHere p prev (c :: cs) || scanMatch p (some c) cs

/-- `pattern.test(line)` for one keyword pattern. -/
def testPattern (p : KeywordPattern) (line : String) : Bool :=
  scanMatch p none line.data

/-- The `ERROR_KEYWORDS` array, in source order. Fields:
literal, `[1-9]` class, trailing `\b`, `/i` flag. -/
def ERROR_KEYWORDS : List KeywordPattern := [
  ⟨"error".data, false, true, true⟩,
  ⟨"failed".data, false, true, true⟩,
  ⟨"failure".data, false, true, true⟩,
  ⟨"exception".data, false, true, true⟩,
  ⟨"fatal".data, false, true, true⟩,
  ⟨"cannot".data, false, true, true⟩,
  ⟨"could not".data, false, true, true⟩,
  ⟨"unable to".data, false, true, true⟩,
  ⟨"undefined".data, false, true, true⟩,
  ⟨"null".data, false, true, true⟩,
  ⟨"timeout".data, false, true, true⟩,
  ⟨"exit code ".data, true, false, true⟩,
  ⟨"exited with".data, false, true, true⟩,
  ⟨"npm ERR!".data, false, false, false⟩,
  ⟨"TypeError".data, false, true, false⟩,
  ⟨"SyntaxError".data, false, true, false⟩,
  ⟨"ReferenceError".data, false, true, false⟩,
  ⟨"AssertionError".data, false, true, false⟩,
  ⟨"ENOENT".data, false, true, false⟩,
  ⟨"EACCES".data, false, true, false⟩,
  ⟨"segmentation fault".data, false, true, true⟩,
  ⟨"panic".data, false, true, true⟩,
  ⟨"stack trace".data, false, true, true⟩,
  ⟨"traceback".data, false, true, true⟩]

/-- The inner `for (const pattern of ERROR_KEYWORDS) if (pattern.test(line))`
loop of `extractRelevantLogs`: does some keyword match the line? -/
def lineMatches (line : String) : Bool :=
  ERROR_KEYWORDS.any (fun p => testPattern p line)

/-- Matching against only the `/i`-flagged (case-insensitive) subset of the
signature set. -/
def lineMatchesCI (line : String) : Bool :=
  (ERROR_KEYWORDS.filter (fun p => p.ignoreCase)).any (fun p => testPattern p line)

/-- `CONTEXT_LINES = 5`: lines kept before and after each match. -/
def CONTEXT_LINES : Nat := 5

/-- Is corpus index `i` in `matchedLineIndices`? The source inserts, for every
matching line at index `j`, all `i` with `max(0, j-5) ≤ i ≤ min(n-1, j+5)`
into a `Set`; membership of `i < n` is therefore: some `j < n` matches with
`j - 5 ≤ i ≤ j + 5` (the lower clamp is automatic on `Nat`, written
`j ≤ i + 5`; the upper clamp is `i < n`, automatic below). -/
def isKeptIndex (lines : List String) (i : Nat) : Bool :=
  (List.range lines.length).any (fun j =>
    lineMatches (lines.getD j "") && j ≤ i + CONTEXT_LINES && i ≤ j + CONTEXT_LINES)

/-- `Array.from(matchedLineIndices).sort((a, b) => a - b)`: the numerically
sorted list of distinct kept indices, i.e. the kept members of `0..n-1`
in increasing order. -/
def sortedIndices (lines : List String) : List Nat :=
  (List.range lines.length).filter (fun i => isKeptIndex lines i)

/-- The separator string pushed between non-consecutive kept indices. -/
def SEPARATOR : String := "... (skipped lines) ..."

/-- The separator-insertion loop of `extractRelevantLogs`, on index level:
`none` stands for a pushed separator line, `some i` for corpus line `i`.
`started` is `extractedLines.length > 0` and `last` is `lastIndex`
(initially `-2`). -/
def mergeGo (started : Bool) (last : Int) : List Nat → List (Option Nat)
  | [] => []
  | i :: rest =>
    (if last + 1 < (i : Int) ∧ started = true then [Option.none] else []) ++
      (Option.some i :: mergeGo true (i : Int) rest)

/-- The merged excerpt of the source, on index level (before rendering). -/
def mergeIndices (idxs : List Nat) : List (Option Nat) :=
  mergeGo false (-2) idxs

/-- Render one merged entry as the string the source pushes into
`extractedLines`: a separator, or `lines[index]`. -/
def renderEntry (lines : List String) : Option Nat → String
  | none => SEPARATOR
  | some i => lines.getD i ""

/-- The merged index-level excerpt of a corpus. -/
def taggedExcerpt (lines : List String) : List (Option Nat) :=
  mergeIndices (sortedIndices lines)

/-- `extractedLines` of the source: the merged excerpt as strings. -/
def extractedLines (lines : List String) : List String :=
  (taggedExcerpt lines).map (renderEntry lines)

/-- `arr.slice(-k)` on a list: the trailing `k` elements. JavaScript
`slice(-0)` equals `slice(0)`, the whole array, hence the `k = 0` case. -/
def sliceLast (l : List α) (k : Nat) : List α :=
  if k = 0 then l else l.drop (l.length - k)

/-- The body of `extractRelevantLogs` after `logs.split('\n')`:
`null` when no keyword matched, otherwise the merged excerpt, truncated to
its trailing `maxLines` lines when longer than `maxLines`, joined with
newlines. -/
def extractLines (lines : List String) (maxLines : Nat) : Option String :=
  if (sortedIndices lines).isEmpty then none
  else if maxLines < (extractedLines lines).length then
    some (String.intercalate "\n" (sliceLast (extractedLines lines) maxLines))
  else
    some (String.intercalate "\n" (extractedLines lines))

/-- `logs.split('\n')`, char by char: JavaScript single-character split.
`cur` holds the characters of the current line in reverse. -/
def splitLinesGo (cur : List Char) : List Char → List String
  | [] => [String.mk cur.reverse]
  | c :: cs =>
    if c = '\n' then String.mk cur.reverse :: splitLinesGo [] cs
    else splitLinesGo (c :: cur) cs

/-- `logs.split('\n')`. The empty string yields the single empty line. -/
def splitLines (logs : String) : List String :=
  splitLinesGo [] logs.data

/-- `extractRelevantLogs(logs, maxLines)` of the source. -/
def extractRelevantLogs (logs : String) (maxLines : Nat) : Option String :=
  extractLines (splitLines logs) maxLines

/-- The index-level excerpt after the final truncation step, so that
`extractLines` (when not `none`) is its rendering. -/
def finalTagged (lines : List String) (maxLines : Nat) : List (Option Nat) :=
  if maxLines < (extractedLines lines).length then
    sliceLast (taggedExcerpt lines) maxLines
  else taggedExcerpt lines

/-!
Part 2: the orchestrator `run()` and the Slack/AI helpers.

Inputs come from `core.getInput`, which yields `""` for an absent input;
JavaScript truthiness on these strings is `≠ ""`. Every network operation is
modelled by a response field of `Env`: `Except.error e` is a rejected
promise/thrown transport error (caught by the surrounding `try`, producing
`core.setFailed("Action failed: " + e)`), `Except.ok` is a resolved response,
whose `ok` flag is the Slack API-level `data.ok` (or `response.ok` for the
webhook). `run` returns the ordered list of attempted network calls together
with the terminal outcome (`completed` = the `try` block ran to its end or
executed a plain `return`; `failed msg` = `core.setFailed(msg)`).

Strings used only inside the analysis prompt are irrelevant to every claim
and are kept only where they influence control flow. Error messages follow
the source text, with quote characters dropped.
-/

/-- A Slack user as returned by `users.lookupByEmail`. -/
structure SlackUser where
  id : String
  name : String
  deriving DecidableEq

/-- Response body of `users.lookupByEmail`: `data.ok` and `data.user`. -/
structure LookupResponse where
  ok : Bool
  user : Option SlackUser
  deriving DecidableEq

/-- Response body of `conversations.open`. -/
structure DmOpenResponse where
  ok : Bool
  channelId : String
  error : String
  deriving DecidableEq

/-- Response body of `chat.postMessage`. -/
structure PostResponse where
  ok : Bool
  error : String
  deriving DecidableEq

/-- Webhook `fetch` response: `response.ok` plus the status line rendered
into the error message. -/
structure WebhookResponse where
  ok : Bool
  statusText : String
  deriving DecidableEq

/-- Run-level metadata from `getWorkflowRun`; `committerEmail = ""` models an
absent `head_commit?.author?.email`. -/
structure WorkflowRun where
  name : String
  headBranch : String
  committerEmail : String
  committerName : String
  deriving DecidableEq

/-- One entry of `listJobsForWorkflowRun`. -/
structure Job where
  name : String
  id : Nat
  conclusion : String
  deriving DecidableEq

/-- Action inputs, as read by `core.getInput` (`""` = not supplied). -/
structure Config where
  githubToken : String
  provider : String
  slackBotToken : String
  slackWebhookUrl : String
  notificationMode : String
  fallbackChannel : String
  anthropicApiKey : String
  groqApiKey : String
  geminiApiKey : String
  model : String
  maxLogLines : Nat
  deriving DecidableEq

/-- Responses of the external world, one field per network operation. -/
structure Env where
  workflowRunResult : Except String WorkflowRun
  jobsResult : Except String (List Job)
  jobLogs : Nat → Except String String
  aiResult : Except String String
  lookupResult : Except String LookupResponse
  dmOpenResult : Except String DmOpenResponse
  dmPostResult : Except String PostResponse
  channelPostResult : Except String PostResponse
  webhookResult : Except String WebhookResponse

/-- A network call attempted by `run`, in order of occurrence. -/
inductive ApiCall where
  | fetchWorkflowRun : ApiCall
  | listJobs : ApiCall
  | downloadLogs : Nat → ApiCall
  | aiCall : String → ApiCall
  | slackLookup : String → ApiCall
  | dmOpen : String → ApiCall
  | dmPost : String → ApiCall
  | channelPost : String → ApiCall
  | webhookPost : String → ApiCall
  deriving DecidableEq

/-- Terminal outcome of `run`: normal completion, or `core.setFailed(msg)`. -/
inductive Outcome where
  | completed : Outcome
  | failed : String → Outcome
  deriving DecidableEq

/-- The attempted network calls, in order, and the terminal outcome. -/
structure RunResult where
  actions : List ApiCall
  outcome : Outcome
  deriving DecidableEq

/-- Is an action the sending of a notification (webhook post, channel post,
or DM post)? -/
def isSendAction : ApiCall → Bool
  | ApiCall.webhookPost _ => true
  | ApiCall.channelPost _ => true
  | ApiCall.dmPost _ => true
  | _ => false

/-- The `DEFAULT_MODELS` table. -/
def DEFAULT_MODELS : String → Option String
  | "anthropic" => some "claude-sonnet-4-20250514"
  | "groq" => some "llama-3.3-70b-versatile"
  | "gemini" => some "gemini-2.0-flash"
  | _ => none

/-- `core.getInput('provider') || 'anthropic'`. -/
def effProvider (cfg : Config) : String :=
  if cfg.provider = "" then "anthropic" else cfg.provider

/-- `core.getInput('notification_mode') || 'channel'`. -/
def effMode (cfg : Config) : String :=
  if cfg.notificationMode = "" then "channel" else cfg.notificationMode

/-- The `switch (provider)` on API keys: the key input selected for a known
provider, `none` for the `default` branch. -/
def apiKeyFor (cfg : Config) (provider : String) : Option String :=
  if provider = "anthropic" then some cfg.anthropicApiKey
  else if provider = "groq" then some cfg.groqApiKey
  else if provider = "gemini" then some cfg.geminiApiKey
  else none

/-- `lookupSlackUserByEmail`: an API response with `data.ok` false yields
`null`, exactly like a response without a user; only a transport error
propagates as a thrown error. -/
def lookupSlackUserByEmail (response : Except String LookupResponse) :
    Except String (Option SlackUser) :=
  response.map (fun r => if r.ok then r.user else none)

/-- `analyzeWithAI`: one backend call for a known provider, the `default`
branch throws `Unknown provider` without any call. -/
def analyzeWithAI (provider : String) (aiResult : Except String String) :
    List ApiCall × Except String String :=
  if provider = "anthropic" ∨ provider = "groq" ∨ provider = "gemini" then
    ([ApiCall.aiCall provider], aiResult)
  else ([], Except.error ("Unknown provider: " ++ provider))

/-- `jobsData.jobs.filter(job => job.conclusion === 'failure')`. -/
def failedJobsOf (jobs : List Job) : List Job :=
  jobs.filter (fun j => j.conclusion = "failure")

/-- The per-job log fetch loop: one `downloadLogs` attempt per failed job; a
successful fetch appends the job-boundary marker and the log text to
`allLogs`, a failed fetch only logs a warning. -/
def fetchAllLogs (jobLogs : Nat → Except String String) (jobs : List Job) :
    List ApiCall × String :=
  jobs.foldl
    (fun acc job =>
      match jobLogs job.id with
      | Except.ok logs =>
        (acc.1 ++ [ApiCall.downloadLogs job.id],
          acc.2 ++ "\n\n=== Job: " ++ job.name ++ " ===\n" ++ logs)
      | Except.error _ => (acc.1 ++ [ApiCall.downloadLogs job.id], acc.2))
    ([], "")

/-- The non-windowed fallback: the trailing `maxLogLines` raw lines
(the whole text when within budget). -/
def fallbackTail (allLogs : String) (maxLogLines : Nat) : String :=
  let logLines := splitLines allLogs
  if maxLogLines < logLines.length then
    String.intercalate "\n" (sliceLast logLines maxLogLines)
  else allLogs

/-- `sendSlackChannel` as used from `run`, appended after `acc`; `k` builds
the result from the new action list on success. -/
def channelSend (channel : String) (response : Except String PostResponse)
    (acc : List ApiCall) (k : List ApiCall → RunResult) : RunResult :=
  match response with
  | Except.error e =>
    ⟨acc ++ [ApiCall.channelPost channel], Outcome.failed ("Action failed: " ++ e)⟩
  | Except.ok r =>
    if r.ok then k (acc ++ [ApiCall.channelPost channel])
    else
      ⟨acc ++ [ApiCall.channelPost channel],
        Outcome.failed ("Action failed: Failed to send to channel: " ++ r.error)⟩

/-- DM-mode branch for an unresolved user: post to the fallback channel when
one is configured, otherwise fail with the resolution error. -/
def dmFallback (fallbackChannel : String)
    (channelPostResult : Except String PostResponse) (acc : List ApiCall) :
    RunResult :=
  if fallbackChannel ≠ "" then
    channelSend fallbackChannel channelPostResult acc
      (fun acts => ⟨acts, Outcome.completed⟩)
  else
    ⟨acc, Outcome.failed
      "Could not find Slack user and no fallback channel configured"⟩

/-- `sendSlackDM`: open the conversation, then post; a thrown error or a
non-ok response at either step fails the run. -/
def dmSend (user : SlackUser) (dmOpenResult : Except String DmOpenResponse)
    (dmPostResult : Except String PostResponse) (acc : List ApiCall) :
    RunResult :=
  match dmOpenResult with
  | Except.error e =>
    ⟨acc ++ [ApiCall.dmOpen user.id], Outcome.failed ("Action failed: " ++ e)⟩
  | Except.ok op =>
    if op.ok then
      match dmPostResult with
      | Except.error e =>
        ⟨acc ++ [ApiCall.dmOpen user.id, ApiCall.dmPost op.channelId],
          Outcome.failed ("Action failed: " ++ e)⟩
      | Except.ok ps =>
        if ps.ok then
          ⟨acc ++ [ApiCall.dmOpen user.id, ApiCall.dmPost op.channelId],
            Outcome.completed⟩
        else
          ⟨acc ++ [ApiCall.dmOpen user.id, ApiCall.dmPost op.channelId],
            Outcome.failed ("Action failed: Failed to send DM: " ++ ps.error)⟩
    else
      ⟨acc ++ [ApiCall.dmOpen user.id],
        Outcome.failed ("Action failed: Failed to open DM: " ++ op.error)⟩

/-- The DM-mode send block of `run`: look the committer up by email when an
email is present, DM on success, otherwise fall back. -/
def notifyDM (fallbackChannel email : String)
    (lookupOutcome : Except String (Option SlackUser))
    (dmOpenResult : Except String DmOpenResponse)
    (dmPostResult : Except String PostResponse)
    (channelPostResult : Except String PostResponse) (acc : List ApiCall) :
    RunResult :=
  if email ≠ "" then
    match lookupOutcome with
    | Except.error e =>
      ⟨acc ++ [ApiCall.slackLookup email], Outcome.failed ("Action failed: " ++ e)⟩
    | Except.ok (some user) =>
      dmSend user dmOpenResult dmPostResult (acc ++ [ApiCall.slackLookup email])
    | Except.ok none =>
      dmFallback fallbackChannel channelPostResult (acc ++ [ApiCall.slackLookup email])
  else dmFallback fallbackChannel channelPostResult acc

/-- The channel-mode send block of `run`: webhook when configured, else a
bot-token post to the fallback channel when both are configured, else no
send at all, completing normally in each non-throwing case. -/
def notifyChannel (webhookUrl botToken fallbackChannel : String)
    (webhookResult : Except String WebhookResponse)
    (channelPostResult : Except String PostResponse) (acc : List ApiCall) :
    RunResult :=
  if webhookUrl ≠ "" then
    match webhookResult with
    | Except.error e =>
      ⟨acc ++ [ApiCall.webhookPost webhookUrl],
        Outcome.failed ("Action failed: " ++ e)⟩
    | Except.ok r =>
      if r.ok then ⟨acc ++ [ApiCall.webhookPost webhookUrl], Outcome.completed⟩
      else
        ⟨acc ++ [ApiCall.webhookPost webhookUrl],
          Outcome.failed ("Action failed: Slack webhook failed: " ++ r.statusText)⟩
  else if botToken ≠ "" ∧ fallbackChannel ≠ "" then
    channelSend fallbackChannel channelPostResult acc
      (fun acts => ⟨acts, Outcome.completed⟩)
  else ⟨acc, Outcome.completed⟩

/-- The `run()` entry point of the source, step by step: required input,
provider switch, API-key check, mode validation, workflow-run fetch, job
listing, per-job log fetch, keyword extraction (or raw-tail fallback) into
the prompt, AI analysis, then the mode-selected notification block. -/
def run (cfg : Config) (env : Env) : RunResult :=
  if cfg.githubToken = "" then
    ⟨[], Outcome.failed "Action failed: Input required and not supplied: github_token"⟩
  else
    match apiKeyFor cfg (effProvider cfg) with
    | none =>
      ⟨[], Outcome.failed ("Unknown provider: " ++ effProvider cfg ++
        ". Use anthropic, groq, or gemini")⟩
    | some apiKey =>
      if apiKey = "" then
        ⟨[], Outcome.failed (effProvider cfg ++
          "_api_key is required when using the " ++ effProvider cfg ++ " provider")⟩
      else
        if effMode cfg = "dm" ∧ cfg.slackBotToken = "" then
          ⟨[], Outcome.failed "slack_bot_token is required for DM mode"⟩
        else if effMode cfg = "channel" ∧ cfg.slackWebhookUrl = "" ∧
            cfg.slackBotToken = "" then
          ⟨[], Outcome.failed
            "slack_webhook_url or slack_bot_token is required for channel mode"⟩
        else
          match env.workflowRunResult with
          | Except.error e =>
            ⟨[ApiCall.fetchWorkflowRun], Outcome.failed ("Action failed: " ++ e)⟩
          | Except.ok wr =>
            match env.jobsResult with
            | Except.error e =>
              ⟨[ApiCall.fetchWorkflowRun, ApiCall.listJobs],
                Outcome.failed ("Action failed: " ++ e)⟩
            | Except.ok jobs =>
              if failedJobsOf jobs = [] then
                ⟨[ApiCall.fetchWorkflowRun, ApiCall.listJobs], Outcome.completed⟩
              else
                let fetched := fetchAllLogs env.jobLogs (failedJobsOf jobs)
                let acc1 := [ApiCall.fetchWorkflowRun, ApiCall.listJobs] ++ fetched.1
                if fetched.2 = "" then
                  ⟨acc1, Outcome.failed "Could not fetch any logs from failed jobs"⟩
                else
                  let _logsToAnalyze :=
                    match extractRelevantLogs fetched.2 cfg.maxLogLines with
                    | some s =>
                      if s = "" then fallbackTail fetched.2 cfg.maxLogLines else s
                    | none => fallbackTail fetched.2 cfg.maxLogLines
                  match (analyzeWithAI (effProvider cfg) env.aiResult).2 with
                  | Except.error e =>
                    ⟨acc1 ++ (analyzeWithAI (effProvider cfg) env.aiResult).1,
                      Outcome.failed ("Action failed: " ++ e)⟩
                  | Except.ok _summary =>
                    let acc2 := acc1 ++ (analyzeWithAI (effProvider cfg) env.aiResult).1
                    if effMode cfg = "dm" then
                      notifyDM cfg.fallbackChannel wr.committerEmail
                        (lookupSlackUserByEmail env.lookupResult)
                        env.dmOpenResult env.dmPostResult env.channelPostResult acc2
                    else
                      notifyChannel cfg.slackWebhookUrl cfg.slackBotToken
                        cfg.fallbackChannel env.webhookResult env.channelPostResult acc2

/-- A workflow run whose committer email resolves. -/
def wrSample : WorkflowRun :=
  ⟨"CI", "main", "dev@example.com", "Dev"⟩

/-- A single failed job. -/
def jobSample : Job := ⟨"build", 7, "failure"⟩

/-- An environment in which every network call succeeds. -/
def envAllOk : Env where
  workflowRunResult := Except.ok wrSample
  jobsResult := Except.ok [jobSample]
  jobLogs := fun _ => Except.ok "error: build failed"
  aiResult := Except.ok "summary text"
  lookupResult := Except.ok ⟨true, some ⟨"U1", "dev"⟩⟩
  dmOpenResult := Except.ok ⟨true, "D1", ""⟩
  dmPostResult := Except.ok ⟨true, ""⟩
  channelPostResult := Except.ok ⟨true, ""⟩
  webhookResult := Except.ok ⟨true, "OK"⟩

/-- Channel mode with a bot token but neither webhook nor fallback channel:
input validation passes, yet the channel-mode send block has no branch to
take. -/
def cfgBotNoFallback : Config :=
  ⟨"gh-token", "", "xoxb-bot", "", "channel", "", "sk-ant", "", "", "", 500⟩

/-- Channel mode with only a webhook configured. -/
def cfgWebhook : Config :=
  ⟨"gh-token", "groq", "", "https://hooks.example", "", "", "", "gq-key", "",
    "", 500⟩

/-- DM mode with a bot token and a fallback channel. -/
def cfgDM : Config :=
  ⟨"gh-token", "", "xoxb-bot", "", "dm", "C42", "sk-ant", "", "", "", 500⟩

/-- `envAllOk` with a lookup response whose `ok` is false (for instance an
`invalid_auth` or `ratelimited` Slack error body). -/
def envLookupNotOk : Env :=
  { envAllOk with lookupResult := Except.ok ⟨false, none⟩ }

/-- DM mode without a fallback channel. -/
def cfgDMNoFallback : Config :=
  ⟨"gh-token", "", "xoxb-bot", "", "dm", "", "sk-ant", "", "", "", 500⟩

/-- An unknown provider selector. -/
def cfgFooProvider : Config :=
  ⟨"gh-token", "foo", "", "https://hooks.example", "", "", "", "", "", "", 500⟩

/-- The separator-placement rule, written as a recursive specification over
the sorted kept indices: after a kept index `prev`, the next kept index `j`
is preceded by exactly one separator when `prev + 1 < j` and by none
otherwise. -/
def sepSpecFrom (prev : Nat) : List Nat → List (Option Nat)
  | [] => []
  | j :: rest =>
    (if prev + 1 < j then [Option.none] else []) ++
      (Option.some j :: sepSpecFrom j rest)

/-- Separator placement for the whole index list: no separator before the
first kept index. -/
def sepSpec : List Nat → List (Option Nat)
  | [] => []
  | i :: rest => Option.some i :: sepSpecFrom i rest

/-! Helper lemmas about the extraction pipeline. -/

theorem mergeGo_filterMap (l : List Nat) :
    ∀ (started : Bool) (last : Int), (mergeGo started last l).filterMap id = l := by
  induction l with
  | nil => intro s t; rfl
  | cons i rest ih =>
    intro s t
    simp only [mergeGo]
    split
    · simp [ih]
    · simp [ih]

theorem taggedExcerpt_filterMap (lines : List String) :
    (taggedExcerpt lines).filterMap id = sortedIndices lines :=
  mergeGo_filterMap _ _ _

theorem sortedIndices_pairwise (lines : List String) :
    (sortedIndices lines).Pairwise (· < ·) :=
  (List.pairwise_lt_range lines.length).filter _

theorem mem_sortedIndices_lt {lines : List String} {i : Nat}
    (h : i ∈ sortedIndices lines) : i < lines.length :=
  List.mem_range.mp (List.mem_filter.mp h).1

theorem sliceLast_sublist (l : List α) (k : Nat) :
    List.Sublist (sliceLast l k) l := by
  unfold sliceLast
  split
  · exact List.Sublist.refl l
  · exact List.drop_sublist _ l

theorem sliceLast_map (f : α → β) (l : List α) (k : Nat) :
    sliceLast (l.map f) k = (sliceLast l k).map f := by
  unfold sliceLast
  by_cases h : k = 0
  · simp [h]
  · simp only [if_neg h, List.length_map]
    exact (List.map_drop f l (l.length - k)).symm

theorem finalTagged_sublist (lines : List String) (maxLines : Nat) :
    List.Sublist (finalTagged lines maxLines) (taggedExcerpt lines) := by
  unfold finalTagged
  split
  · exact sliceLast_sublist _ _
  · exact List.Sublist.refl _

theorem sortedIndices_ne_nil {lines : List String}
    (h : ∃ line ∈ lines, lineMatches line = true) : sortedIndices lines ≠ [] := by
  obtain ⟨line, hmem, hmatch⟩ := h
  obtain ⟨n, hn, hline⟩ := List.mem_iff_getElem.mp hmem
  apply List.ne_nil_of_mem (a := n)
  apply List.mem_filter.mpr
  refine ⟨List.mem_range.mpr hn, ?_⟩
  unfold isKeptIndex
  apply List.any_eq_true.mpr
  refine ⟨n, List.mem_range.mpr hn, ?_⟩
  rw [List.getD_eq_getElem lines "" hn, hline]
  simp [hmatch]

theorem extractLines_eq_final (lines : List String) (maxLines : Nat)
    (h : (sortedIndices lines).isEmpty = false) :
    extractLines lines maxLines =
      some (String.intercalate "\n"
        ((finalTagged lines maxLines).map (renderEntry lines))) := by
  unfold extractLines finalTagged
  rw [h]
  simp only [Bool.false_eq_true, if_false]
  split
  · rw [← sliceLast_map]
    rfl
  · rfl

theorem extractedLines_length (lines : List String) :
    (extractedLines lines).length = (taggedExcerpt lines).length := by
  unfold extractedLines
  exact List.length_map _ _

theorem isEmpty_false_of_match {lines : List String}
    (hmatch : ∃ line ∈ lines, lineMatches line = true) :
    (sortedIndices lines).isEmpty = false := by
  cases h : (sortedIndices lines).isEmpty
  · rfl
  · exact absurd (List.isEmpty_iff.mp h) (sortedIndices_ne_nil hmatch)

/-- C1: for every corpus with at least one keyword-matching line and every
`maxLines ≥ 1`, `extractLines` returns a non-`none` excerpt, namely the
rendering of `finalTagged`, whose kept (non-separator) entries are corpus
lines at strictly increasing indices below the corpus length — a subsequence
of the corpus in original index order, with no index emitted twice. -/
theorem extract_keeps_subsequence (lines : List String) (maxLines : Nat)
    (_hmax : 1 ≤ maxLines) (hmatch : ∃ line ∈ lines, lineMatches line = true) :
    extractLines lines maxLines =
      some (String.intercalate "\n"
        ((finalTagged lines maxLines).map (renderEntry lines))) ∧
    ((finalTagged lines maxLines).filterMap id).Pairwise (· < ·) ∧
    ((finalTagged lines maxLines).filterMap id).Nodup ∧
    ∀ i ∈ (finalTagged lines maxLines).filterMap id, i < lines.length := by
  have hemp := isEmpty_false_of_match hmatch
  have hsub : List.Sublist ((finalTagged lines maxLines).filterMap id)
      (sortedIndices lines) := by
    rw [← taggedExcerpt_filterMap lines]
    exact (finalTagged_sublist lines maxLines).filterMap id
  have hpw : ((finalTagged lines maxLines).filterMap id).Pairwise (· < ·) :=
    (sortedIndices_pairwise lines).sublist hsub
  refine ⟨extractLines_eq_final lines maxLines hemp, hpw,
    hpw.imp Nat.ne_of_lt, ?_⟩
  intro i hi
  exact mem_sortedIndices_lt (hsub.mem hi)

theorem extract_keeps_subsequence_witness :
    extractLines ["a", "error b"] 2 =
      some (String.intercalate "\n"
        ((finalTagged ["a", "error b"] 2).map (renderEntry ["a", "error b"]))) ∧
    ((finalTagged ["a", "error b"] 2).filterMap id).Pairwise (· < ·) ∧
    ((finalTagged ["a", "error b"] 2).filterMap id).Nodup ∧
    ∀ i ∈ (finalTagged ["a", "error b"] 2).filterMap id,
      i < (["a", "error b"] : List String).length :=
  extract_keeps_subsequence ["a", "error b"] 2 (by decide)
    ⟨"error b", by decide, by decide⟩

/-- C2: when no corpus line matches any keyword, `extractLines` returns
`none` (and so does `extractRelevantLogs` on the empty corpus), never an
empty-string excerpt. -/
theorem extract_no_match_none (lines : List String) (maxLines : Nat)
    (h : ∀ line ∈ lines, lineMatches line = false) :
    extractLines lines maxLines = none ∧
      extractRelevantLogs "" maxLines = none := by
  constructor
  · have hnil : sortedIndices lines = [] := by
      unfold sortedIndices
      apply List.filter_eq_nil_iff.mpr
      intro i _hi hcon
      obtain ⟨j, hj, hpred⟩ := List.any_eq_true.mp hcon
      have hjlt := List.mem_range.mp hj
      have hfalse : lineMatches (lines.getD j "") = false := by
        rw [List.getD_eq_getElem lines "" hjlt]
        exact h _ (List.getElem_mem hjlt)
      rw [hfalse] at hpred
      simp at hpred
    unfold extractLines
    rw [hnil]
    rfl
  · have hnil : sortedIndices (splitLines "") = [] := by decide
    show extractLines (splitLines "") maxLines = none
    unfold extractLines
    rw [hnil]
    rfl

theorem extract_no_match_none_witness :
    extractLines ["all", "good"] 3 = none ∧
      extractRelevantLogs "" 3 = none :=
  extract_no_match_none ["all", "good"] 3 (by decide)

/-- C3: when the merged excerpt exceeds `maxLines ≥ 1`, the result is
exactly the trailing `maxLines` lines of the pre-truncation merged result
(`extractedLines`), of length exactly `maxLines`; the gap detection is not
re-run (the kept tail is taken verbatim). -/
theorem extract_truncates_to_tail (lines : List String) (maxLines : Nat)
    (hmax : 1 ≤ maxLines)
    (hover : maxLines < (extractedLines lines).length) :
    extractLines lines maxLines =
      some (String.intercalate "\n"
        ((extractedLines lines).drop ((extractedLines lines).length - maxLines))) ∧
    ((extractedLines lines).drop
        ((extractedLines lines).length - maxLines)).length = maxLines := by
  have hne : (sortedIndices lines).isEmpty = false := by
    cases hsi : (sortedIndices lines).isEmpty
    · rfl
    · exfalso
      have h0 : sortedIndices lines = [] := List.isEmpty_iff.mp hsi
      have hext : extractedLines lines = [] := by
        unfold extractedLines taggedExcerpt mergeIndices
        rw [h0]
        rfl
      rw [hext] at hover
      simp at hover
  constructor
  · unfold extractLines
    rw [hne]
    simp only [Bool.false_eq_true, if_false, if_pos hover]
    unfold sliceLast
    rw [if_neg (by omega)]
  · rw [List.length_drop]
    omega

theorem extract_truncates_to_tail_witness :
    extractLines ["error", "x"] 1 =
      some (String.intercalate "\n"
        ((extractedLines ["error", "x"]).drop
          ((extractedLines ["error", "x"]).length - 1))) ∧
    ((extractedLines ["error", "x"]).drop
        ((extractedLines ["error", "x"]).length - 1)).length = 1 :=
  extract_truncates_to_tail ["error", "x"] 1 (by decide) (by decide)

theorem mergeGo_eq_sepSpecFrom (rest : List Nat) :
    ∀ i : Nat, mergeGo true (i : Int) rest = sepSpecFrom i rest := by
  induction rest with
  | nil => intro i; rfl
  | cons j rs ih =>
    intro i
    have hstep : mergeGo true (i : Int) (j :: rs) =
        (if (i : Int) + 1 < (j : Int) ∧ (true = true) then [Option.none] else []) ++
          (Option.some j :: mergeGo true (j : Int) rs) := rfl
    have hspec : sepSpecFrom i (j :: rs) =
        (if i + 1 < j then [Option.none] else []) ++
          (Option.some j :: sepSpecFrom j rs) := rfl
    by_cases hij : i + 1 < j
    · rw [hstep, ih j, hspec, if_pos ⟨by exact_mod_cast hij, rfl⟩, if_pos hij]
    · rw [hstep, ih j, hspec, if_neg, if_neg hij]
      rintro ⟨h1, _⟩
      exact hij (by exact_mod_cast h1)

theorem mergeIndices_eq_sepSpec (l : List Nat) :
    mergeIndices l = sepSpec l := by
  cases l with
  | nil => rfl
  | cons i rest =>
    show mergeGo false (-2) (i :: rest) = Option.some i :: sepSpecFrom i rest
    simp only [mergeGo]
    rw [if_neg (by simp)]
    rw [mergeGo_eq_sepSpecFrom]
    rfl

theorem chain_some_sepSpecFrom (l : List Nat) :
    ∀ j : Nat,
      List.Chain' (fun a b => a ≠ Option.none ∨ b ≠ Option.none)
        (Option.some j :: sepSpecFrom j l) := by
  induction l with
  | nil => intro j; simp [sepSpecFrom]
  | cons k rs ih =>
    intro j
    simp only [sepSpecFrom]
    split
    · simp only [List.singleton_append]
      apply List.chain'_cons.mpr
      refine ⟨Or.inl (by simp), ?_⟩
      apply List.chain'_cons.mpr
      exact ⟨Or.inr (by simp), ih k⟩
    · simp only [List.nil_append]
      apply List.chain'_cons.mpr
      exact ⟨Or.inl (by simp), ih k⟩

theorem sepSpec_chain (l : List Nat) :
    List.Chain' (fun a b => a ≠ Option.none ∨ b ≠ Option.none) (sepSpec l) := by
  cases l with
  | nil => simp [sepSpec]
  | cons i rest => exact chain_some_sepSpecFrom rest i

/-- C4: the untruncated merged excerpt places exactly one separator between
two consecutive kept indices exactly when the second exceeds the first by
more than one (`sepSpec` is that placement rule, stated recursively), so
overlapping or adjacent windows yield no internal separator, distant windows
yield exactly one, and two separators never appear in a row. -/
theorem merged_separator_placement (lines : List String) :
    taggedExcerpt lines = sepSpec (sortedIndices lines) ∧
    List.Chain' (fun a b => a ≠ Option.none ∨ b ≠ Option.none)
      (taggedExcerpt lines) := by
  have he : taggedExcerpt lines = sepSpec (sortedIndices lines) :=
    mergeIndices_eq_sepSpec (sortedIndices lines)
  exact ⟨he, he ▸ sepSpec_chain (sortedIndices lines)⟩

/-- C10 counterexample: the source can return a `some` excerpt that is the
empty string: the corpus `"error\n"` has lines `["error", ""]`, both kept,
and truncation to the trailing single line keeps only the empty context
line. -/
theorem extract_empty_string_cex :
    extractRelevantLogs "error\n" 1 = some "" := by decide

/-- C10 corrected: with `maxLines ≥ 1`, every non-`none` result renders a
list of at least one kept-or-separator line; however the rendered string may
be empty when that line is an empty context line (see the counterexample),
so "at least one line" does not imply a non-empty excerpt string. -/
theorem extract_some_has_line (lines : List String) (maxLines : Nat)
    (hmax : 1 ≤ maxLines) (s : String)
    (hs : extractLines lines maxLines = some s) :
    s = String.intercalate "\n"
        ((finalTagged lines maxLines).map (renderEntry lines)) ∧
    1 ≤ (finalTagged lines maxLines).length := by
  have hne : (sortedIndices lines).isEmpty = false := by
    cases h : (sortedIndices lines).isEmpty
    · rfl
    · unfold extractLines at hs
      rw [h] at hs
      simp at hs
  have heq := extractLines_eq_final lines maxLines hne
  rw [hs] at heq
  refine ⟨Option.some.inj heq, ?_⟩
  have hne2 : sortedIndices lines ≠ [] := by
    intro h0
    rw [h0] at hne
    simp at hne
  have htag : taggedExcerpt lines ≠ [] := by
    intro h0
    have := taggedExcerpt_filterMap lines
    rw [h0] at this
    exact hne2 this.symm
  unfold finalTagged
  split
  · next hlt =>
    unfold sliceLast
    rw [if_neg (by omega), List.length_drop]
    rw [extractedLines_length] at hlt
    omega
  · have : 0 < (taggedExcerpt lines).length := List.length_pos.mpr htag
    omega

theorem extract_some_has_line_witness :
    ("fatal: x" = String.intercalate "\n"
        ((finalTagged ["fatal: x"] 9).map (renderEntry ["fatal: x"]))) ∧
    1 ≤ (finalTagged ["fatal: x"] 9).length :=
  extract_some_has_line ["fatal: x"] 9 (by decide) "fatal: x" (by decide)

/-! Case-folding lemmas for the `/i`-flagged keyword patterns. -/

theorem charToNat_inj {a b : Char} (h : a.toNat = b.toNat) : a = b :=
  Char.ext (UInt32.ext h)

theorem asciiLower_toNat (c : Char) : (asciiLower c).toNat = lowerNat c.toNat := by
  unfold asciiLower lowerNat
  split
  · rfl
  · rfl

theorem lowerNat_idem (n : Nat) : lowerNat (lowerNat n) = lowerNat n := by
  unfold lowerNat
  split_ifs <;> omega

theorem asciiLower_idem (c : Char) : asciiLower (asciiLower c) = asciiLower c := by
  apply charToNat_inj
  rw [asciiLower_toNat, asciiLower_toNat, lowerNat_idem]

theorem isWordChar_asciiLower (c : Char) :
    isWordChar (asciiLower c) = isWordChar c := by
  unfold isWordChar isWordNat
  rw [asciiLower_toNat]
  unfold lowerNat
  split
  · next h => rw [decide_eq_decide]; omega
  · rfl

theorem isDigit19_asciiLower (c : Char) :
    isDigit19 (asciiLower c) = isDigit19 c := by
  unfold isDigit19
  rw [asciiLower_toNat]
  unfold lowerNat
  split
  · next h => rw [decide_eq_decide]; omega
  · rfl

theorem charMatches_asciiLower (pc c : Char) :
    charMatches true pc (asciiLower c) = charMatches true pc c := by
  show (asciiLower (asciiLower c) == asciiLower pc) = (asciiLower c == asciiLower pc)
  rw [asciiLower_idem]

theorem litMatch_map_lower (lit : List Char) :
    ∀ s : List Char, litMatch true lit (s.map asciiLower) =
      Option.map (List.map asciiLower) (litMatch true lit s) := by
  induction lit with
  | nil => intro s; rfl
  | cons pc ps ih =>
    intro s
    cases s with
    | nil => rfl
    | cons c cs =>
      simp only [List.map_cons, litMatch]
      rw [charMatches_asciiLower]
      by_cases h : charMatches true pc c = true
      · rw [if_pos h, if_pos h, ih]
      · rw [if_neg h, if_neg h]; rfl

theorem matchHere_map_lower (p : KeywordPattern) (hci : p.ignoreCase = true)
    (prev : Option Char) (s : List Char) :
    matchHere p (prev.map asciiLower) (s.map asciiLower) = matchHere p prev s := by
  unfold matchHere
  have hprev : prevOk (prev.map asciiLower) = prevOk prev := by
    cases prev with
    | none => rfl
    | some c =>
      show (!isWordChar (asciiLower c)) = (!isWordChar c)
      rw [isWordChar_asciiLower]
  rw [hprev, hci, litMatch_map_lower]
  cases hlm : litMatch true p.lit s with
  | none => rfl
  | some rest =>
    simp only [Option.map_some']
    by_cases hd : p.digitClass = true
    · rw [if_pos hd, if_pos hd]
      cases rest with
      | nil => rfl
      | cons c cs =>
        simp only [List.map_cons]
        rw [isDigit19_asciiLower]
    · rw [if_neg hd, if_neg hd]
      cases rest with
      | nil => rfl
      | cons c cs =>
        simp only [List.map_cons, tailOk]
        rw [isWordChar_asciiLower]

theorem scanMatch_map_lower (p : KeywordPattern) (hci : p.ignoreCase = true) :
    ∀ (s : List Char) (prev : Option Char),
      scanMatch p (prev.map asciiLower) (s.map asciiLower) = scanMatch p prev s := by
  intro s
  induction s with
  | nil =>
    intro prev
    simp only [List.map_nil, scanMatch]
    exact matchHere_map_lower p hci prev []
  | cons c cs ih =>
    intro prev
    simp only [List.map_cons, scanMatch]
    have h1 := matchHere_map_lower p hci prev (c :: cs)
    simp only [List.map_cons] at h1
    rw [h1]
    have h2 := ih (Option.some c)
    simp only [Option.map_some'] at h2
    rw [h2]

/-- C5 counterexample: signature matching is not case-insensitive as a whole:
the line `TypeError` matches the signature set, but its lower-cased variant
`typeerror` matches nothing (`/\bTypeError\b/` has no `/i` flag, and the
embedded `error` has no word boundary before it). -/
theorem keyword_case_sensitivity_cex :
    lineMatches "TypeError" = true ∧ lineMatches "typeerror" = false := by
  decide

/-- C5 corrected: matching is case-insensitive for the 17 signatures that
carry the `/i` flag: whether a line matches that subset is unchanged under
any alteration of letter case (two lines with the same ASCII-lower-casing
match the subset identically). The seven signatures without `/i`
(`npm ERR!`, `TypeError`, `SyntaxError`, `ReferenceError`,
`AssertionError`, `ENOENT`, `EACCES`) are case-sensitive. -/
theorem ci_keywords_case_invariant (s t : String)
    (h : s.data.map asciiLower = t.data.map asciiLower) :
    lineMatchesCI s = lineMatchesCI t := by
  unfold lineMatchesCI
  apply Bool.eq_iff_iff.mpr
  rw [List.any_eq_true, List.any_eq_true]
  apply exists_congr
  intro p
  constructor
  · rintro ⟨hp, hm⟩
    refine ⟨hp, ?_⟩
    have hci : p.ignoreCase = true := by
      have := (List.mem_filter.mp hp).2
      simpa using this
    unfold testPattern at hm ⊢
    have h1 := scanMatch_map_lower p hci s.data Option.none
    have h2 := scanMatch_map_lower p hci t.data Option.none
    simp only [Option.map_none'] at h1 h2
    rw [← h2, ← h, h1]
    exact hm
  · rintro ⟨hp, hm⟩
    refine ⟨hp, ?_⟩
    have hci : p.ignoreCase = true := by
      have := (List.mem_filter.mp hp).2
      simpa using this
    unfold testPattern at hm ⊢
    have h1 := scanMatch_map_lower p hci s.data Option.none
    have h2 := scanMatch_map_lower p hci t.data Option.none
    simp only [Option.map_none'] at h1 h2
    rw [← h1, h, h2]
    exact hm

theorem ci_keywords_case_invariant_witness :
    lineMatchesCI "FATAL Error" = lineMatchesCI "fatal error" :=
  ci_keywords_case_invariant "FATAL Error" "fatal error" (by decide)

/-! Lemmas about the orchestrator. -/

theorem fetchAllLogs_no_send (jobLogs : Nat → Except String String)
    (jobs : List Job) :
    ((fetchAllLogs jobLogs jobs).1).filter isSendAction = [] := by
  unfold fetchAllLogs
  suffices h : ∀ acc : List ApiCall × String,
      acc.1.filter isSendAction = [] →
      ((List.foldl
        (fun acc job =>
          match jobLogs job.id with
          | Except.ok logs =>
            (acc.1 ++ [ApiCall.downloadLogs job.id],
              acc.2 ++ "\n\n=== Job: " ++ job.name ++ " ===\n" ++ logs)
          | Except.error _ => (acc.1 ++ [ApiCall.downloadLogs job.id], acc.2))
        acc jobs).1).filter isSendAction = [] by
    exact h ([], "") rfl
  induction jobs with
  | nil => intro acc hacc; exact hacc
  | cons j js ih =>
    intro acc hacc
    simp only [List.foldl_cons]
    cases henv : jobLogs j.id with
    | ok logs =>
      apply ih
      simp [List.filter_append, hacc, isSendAction]
    | error e =>
      apply ih
      simp [List.filter_append, hacc, isSendAction]

theorem run_reaches_notification (cfg : Config) (env : Env)
    (wr : WorkflowRun) (jobs : List Job) (k summary : String)
    (hg : cfg.githubToken ≠ "")
    (hak : apiKeyFor cfg (effProvider cfg) = some k) (hk : k ≠ "")
    (hdm : ¬(effMode cfg = "dm" ∧ cfg.slackBotToken = ""))
    (hch : ¬(effMode cfg = "channel" ∧ cfg.slackWebhookUrl = "" ∧
      cfg.slackBotToken = ""))
    (hwr : env.workflowRunResult = Except.ok wr)
    (hjobs : env.jobsResult = Except.ok jobs)
    (hfail : ¬(failedJobsOf jobs = []))
    (hlogs : ¬((fetchAllLogs env.jobLogs (failedJobsOf jobs)).2 = ""))
    (hai : env.aiResult = Except.ok summary)
    (hprov : effProvider cfg = "anthropic" ∨ effProvider cfg = "groq" ∨
      effProvider cfg = "gemini") :
    run cfg env =
      (if effMode cfg = "dm" then
        notifyDM cfg.fallbackChannel wr.committerEmail
          (lookupSlackUserByEmail env.lookupResult)
          env.dmOpenResult env.dmPostResult env.channelPostResult
          ([ApiCall.fetchWorkflowRun, ApiCall.listJobs] ++
            (fetchAllLogs env.jobLogs (failedJobsOf jobs)).1 ++
            [ApiCall.aiCall (effProvider cfg)])
      else
        notifyChannel cfg.slackWebhookUrl cfg.slackBotToken cfg.fallbackChannel
          env.webhookResult env.channelPostResult
          ([ApiCall.fetchWorkflowRun, ApiCall.listJobs] ++
            (fetchAllLogs env.jobLogs (failedJobsOf jobs)).1 ++
            [ApiCall.aiCall (effProvider cfg)])) := by
  have hana : analyzeWithAI (effProvider cfg) (Except.ok summary) =
      ([ApiCall.aiCall (effProvider cfg)], Except.ok summary) := by
    unfold analyzeWithAI
    rw [if_pos hprov]
  simp only [run, if_neg hg, hak, if_neg hk, if_neg hdm, if_neg hch, hwr, hjobs,
    if_neg hfail, if_neg hlogs, hai, hana, List.append_assoc]

/-- C7: for every explicitly supplied provider selector outside the closed
set {anthropic, groq, gemini}, `run` fails with the unknown-provider
configuration error and an empty network-call trace — before any log fetch,
AI call, or Slack call — and the selector is never mapped to a fallback
provider. (An absent selector is the empty input string, which the source
defaults to `anthropic` before the switch; it is not an unknown selector.) -/
theorem unknown_provider_fails_before_network (cfg : Config) (env : Env)
    (hg : cfg.githubToken ≠ "")
    (hp0 : cfg.provider ≠ "") (hp1 : cfg.provider ≠ "anthropic")
    (hp2 : cfg.provider ≠ "groq") (hp3 : cfg.provider ≠ "gemini") :
    run cfg env =
      ⟨[], Outcome.failed ("Unknown provider: " ++ cfg.provider ++
        ". Use anthropic, groq, or gemini")⟩ := by
  have heff : effProvider cfg = cfg.provider := by
    unfold effProvider
    rw [if_neg hp0]
  have hkey : apiKeyFor cfg cfg.provider = none := by
    unfold apiKeyFor
    rw [if_neg hp1, if_neg hp2, if_neg hp3]
  simp only [run, if_neg hg, heff, hkey]

theorem unknown_provider_fails_before_network_witness :
    run cfgFooProvider envAllOk =
      ⟨[], Outcome.failed ("Unknown provider: " ++ cfgFooProvider.provider ++
        ". Use anthropic, groq, or gemini")⟩ :=
  unknown_provider_fails_before_network cfgFooProvider envAllOk
    (by decide) (by decide) (by decide) (by decide) (by decide)

/-- C6 counterexample: in channel mode with a bot token present, no webhook
and no fallback channel, precondition validation succeeds, yet the run
completes successfully with zero notification-send attempts, refuting
"exactly one send is attempted" and "never completes with zero sends". -/
theorem channel_mode_zero_send_cex :
    cfgBotNoFallback.notificationMode = "channel" ∧
    cfgBotNoFallback.slackBotToken ≠ "" ∧
    (run cfgBotNoFallback envAllOk).outcome = Outcome.completed ∧
    (run cfgBotNoFallback envAllOk).actions.filter isSendAction = [] := by
  refine ⟨rfl, by decide, ?_, ?_⟩
  · decide
  · decide

/-- C6 corrected: in channel mode, when validation succeeds and the run
reaches the notification step: with a webhook URL configured exactly one
send is attempted, via the webhook, and no bot-token call is made even if a
token is present; with no webhook but a bot token and a fallback channel,
exactly one bot-token channel post is attempted; but with a bot token and no
fallback channel, validation still succeeds and the run completes
successfully with zero send attempts. -/
theorem channel_mode_send_selection (cfg : Config) (env : Env)
    (wr : WorkflowRun) (jobs : List Job) (k summary : String)
    (hg : cfg.githubToken ≠ "")
    (hak : apiKeyFor cfg (effProvider cfg) = some k) (hk : k ≠ "")
    (hmode : effMode cfg = "channel")
    (hvalid : cfg.slackWebhookUrl ≠ "" ∨ cfg.slackBotToken ≠ "")
    (hwr : env.workflowRunResult = Except.ok wr)
    (hjobs : env.jobsResult = Except.ok jobs)
    (hfail : ¬(failedJobsOf jobs = []))
    (hlogs : ¬((fetchAllLogs env.jobLogs (failedJobsOf jobs)).2 = ""))
    (hai : env.aiResult = Except.ok summary)
    (hprov : effProvider cfg = "anthropic" ∨ effProvider cfg = "groq" ∨
      effProvider cfg = "gemini") :
    (cfg.slackWebhookUrl ≠ "" →
      (run cfg env).actions.filter isSendAction =
        [ApiCall.webhookPost cfg.slackWebhookUrl]) ∧
    (cfg.slackWebhookUrl = "" → cfg.fallbackChannel ≠ "" →
      (run cfg env).actions.filter isSendAction =
        [ApiCall.channelPost cfg.fallbackChannel]) ∧
    (cfg.slackWebhookUrl = "" → cfg.fallbackChannel = "" →
      (run cfg env).actions.filter isSendAction = [] ∧
        (run cfg env).outcome = Outcome.completed) := by
  have hdm : ¬(effMode cfg = "dm" ∧ cfg.slackBotToken = "") := by
    rintro ⟨h1, _⟩
    rw [hmode] at h1
    exact absurd h1 (by decide)
  have hch : ¬(effMode cfg = "channel" ∧ cfg.slackWebhookUrl = "" ∧
      cfg.slackBotToken = "") := by
    rintro ⟨_, hw, hb⟩
    cases hvalid with
    | inl h => exact h hw
    | inr h => exact h hb
  have hrun := run_reaches_notification cfg env wr jobs k summary hg hak hk hdm
    hch hwr hjobs hfail hlogs hai hprov
  rw [if_neg (by rw [hmode]; decide)] at hrun
  have hacc : ([ApiCall.fetchWorkflowRun, ApiCall.listJobs] ++
      (fetchAllLogs env.jobLogs (failedJobsOf jobs)).1 ++
      [ApiCall.aiCall (effProvider cfg)]).filter isSendAction = [] := by
    simp only [List.filter_append, fetchAllLogs_no_send]
    simp [isSendAction]
  refine ⟨?_, ?_, ?_⟩
  · intro hw
    rw [hrun]
    unfold notifyChannel
    rw [if_pos hw]
    cases hwh : env.webhookResult with
    | error e =>
      dsimp only
      rw [List.filter_append, hacc]
      rfl
    | ok r =>
      dsimp only
      by_cases hro : r.ok = true
      · rw [if_pos hro]
        dsimp only
        rw [List.filter_append, hacc]
        rfl
      · rw [if_neg hro]
        dsimp only
        rw [List.filter_append, hacc]
        rfl
  · intro hw hfb
    have hbot : cfg.slackBotToken ≠ "" := by
      cases hvalid with
      | inl h => exact absurd hw h
      | inr h => exact h
    rw [hrun]
    unfold notifyChannel
    rw [if_neg (by simpa using hw), if_pos ⟨hbot, hfb⟩]
    unfold channelSend
    cases hcp : env.channelPostResult with
    | error e =>
      dsimp only
      rw [List.filter_append, hacc]
      rfl
    | ok r =>
      dsimp only
      by_cases hro : r.ok = true
      · rw [if_pos hro]
        dsimp only
        rw [List.filter_append, hacc]
        rfl
      · rw [if_neg hro]
        dsimp only
        rw [List.filter_append, hacc]
        rfl
  · intro hw hfb
    rw [hrun]
    unfold notifyChannel
    rw [if_neg (by simpa using hw), if_neg (by rintro ⟨_, h⟩; exact h hfb)]
    exact ⟨hacc, rfl⟩

theorem channel_mode_send_selection_witness :
    (cfgWebhook.slackWebhookUrl ≠ "" →
      (run cfgWebhook envAllOk).actions.filter isSendAction =
        [ApiCall.webhookPost cfgWebhook.slackWebhookUrl]) ∧
    (cfgWebhook.slackWebhookUrl = "" → cfgWebhook.fallbackChannel ≠ "" →
      (run cfgWebhook envAllOk).actions.filter isSendAction =
        [ApiCall.channelPost cfgWebhook.fallbackChannel]) ∧
    (cfgWebhook.slackWebhookUrl = "" → cfgWebhook.fallbackChannel = "" →
      (run cfgWebhook envAllOk).actions.filter isSendAction = [] ∧
        (run cfgWebhook envAllOk).outcome = Outcome.completed) :=
  channel_mode_send_selection cfgWebhook envAllOk wrSample [jobSample]
    "gq-key" "summary text" (by decide) (by decide) (by decide) (by decide)
    (Or.inl (by decide)) rfl rfl (by decide) (by decide) rfl
    (Or.inr (Or.inl (by decide)))

theorem dmFallback_delivers (fallback : String) (hfb : fallback ≠ "")
    (r : PostResponse) (resp : Except String PostResponse)
    (hr : resp = Except.ok r) (hok : r.ok = true) (acc : List ApiCall) :
    dmFallback fallback resp acc =
      ⟨acc ++ [ApiCall.channelPost fallback], Outcome.completed⟩ := by
  unfold dmFallback channelSend
  rw [if_pos hfb, hr]
  dsimp only
  rw [if_pos hok]

theorem dmFallback_fails (fallback : String) (hfb : fallback = "")
    (resp : Except String PostResponse) (acc : List ApiCall) :
    dmFallback fallback resp acc =
      ⟨acc, Outcome.failed
        "Could not find Slack user and no fallback channel configured"⟩ := by
  unfold dmFallback
  rw [if_neg (by simpa using hfb)]

/-- C8: in DM mode (bot token present), when the committer identity cannot be
resolved — the email is absent or the lookup returns no user: with a
configured fallback channel whose post raises no transport error (the
response resolves and its `ok` is true), the run ends delivered-via-fallback
(completed, with the fallback channel post attempted), never failed; with no
fallback channel the run ends failed with the user-not-found resolution
message. -/
theorem dm_unresolved_fallback_or_fail (cfg : Config) (env : Env)
    (wr : WorkflowRun) (jobs : List Job) (k summary : String)
    (hg : cfg.githubToken ≠ "")
    (hak : apiKeyFor cfg (effProvider cfg) = some k) (hk : k ≠ "")
    (hmode : effMode cfg = "dm") (hbot : cfg.slackBotToken ≠ "")
    (hwr : env.workflowRunResult = Except.ok wr)
    (hjobs : env.jobsResult = Except.ok jobs)
    (hfail : ¬(failedJobsOf jobs = []))
    (hlogs : ¬((fetchAllLogs env.jobLogs (failedJobsOf jobs)).2 = ""))
    (hai : env.aiResult = Except.ok summary)
    (hprov : effProvider cfg = "anthropic" ∨ effProvider cfg = "groq" ∨
      effProvider cfg = "gemini")
    (hunres : wr.committerEmail = "" ∨
      lookupSlackUserByEmail env.lookupResult = Except.ok none) :
    (cfg.fallbackChannel ≠ "" →
      ∀ r : PostResponse, env.channelPostResult = Except.ok r → r.ok = true →
        (run cfg env).outcome = Outcome.completed ∧
          ApiCall.channelPost cfg.fallbackChannel ∈ (run cfg env).actions) ∧
    (cfg.fallbackChannel = "" →
      (run cfg env).outcome =
        Outcome.failed
          "Could not find Slack user and no fallback channel configured") := by
  have hdm : ¬(effMode cfg = "dm" ∧ cfg.slackBotToken = "") := by
    rintro ⟨_, hb⟩
    exact hbot hb
  have hch : ¬(effMode cfg = "channel" ∧ cfg.slackWebhookUrl = "" ∧
      cfg.slackBotToken = "") := by
    rintro ⟨h1, _⟩
    rw [hmode] at h1
    exact absurd h1 (by decide)
  have hrun := run_reaches_notification cfg env wr jobs k summary hg hak hk hdm
    hch hwr hjobs hfail hlogs hai hprov
  rw [if_pos hmode] at hrun
  have hfb : ∃ acc : List ApiCall,
      run cfg env = dmFallback cfg.fallbackChannel env.channelPostResult acc := by
    cases hunres with
    | inl hemail =>
      refine ⟨[ApiCall.fetchWorkflowRun, ApiCall.listJobs] ++
        (fetchAllLogs env.jobLogs (failedJobsOf jobs)).1 ++
        [ApiCall.aiCall (effProvider cfg)], ?_⟩
      rw [hrun]
      unfold notifyDM
      rw [if_neg (by simpa using hemail)]
    | inr hlook =>
      by_cases hemail : wr.committerEmail = ""
      · refine ⟨[ApiCall.fetchWorkflowRun, ApiCall.listJobs] ++
          (fetchAllLogs env.jobLogs (failedJobsOf jobs)).1 ++
          [ApiCall.aiCall (effProvider cfg)], ?_⟩
        rw [hrun]
        unfold notifyDM
        rw [if_neg (by simpa using hemail)]
      · refine ⟨([ApiCall.fetchWorkflowRun, ApiCall.listJobs] ++
          (fetchAllLogs env.jobLogs (failedJobsOf jobs)).1 ++
          [ApiCall.aiCall (effProvider cfg)]) ++
          [ApiCall.slackLookup wr.committerEmail], ?_⟩
        rw [hrun]
        unfold notifyDM
        rw [if_pos hemail, hlook]
  obtain ⟨acc, hacc⟩ := hfb
  constructor
  · intro hfbne r hr hok
    rw [hacc, dmFallback_delivers cfg.fallbackChannel hfbne r
      env.channelPostResult hr hok acc]
    exact ⟨rfl, List.mem_append.mpr (Or.inr (by simp))⟩
  · intro hfbe
    rw [hacc, dmFallback_fails cfg.fallbackChannel hfbe env.channelPostResult acc]

theorem dm_unresolved_fallback_or_fail_witness :
    (cfgDM.fallbackChannel ≠ "" →
      ∀ r : PostResponse,
        envLookupNotOk.channelPostResult = Except.ok r → r.ok = true →
        (run cfgDM envLookupNotOk).outcome = Outcome.completed ∧
          ApiCall.channelPost cfgDM.fallbackChannel ∈
            (run cfgDM envLookupNotOk).actions) ∧
    (cfgDM.fallbackChannel = "" →
      (run cfgDM envLookupNotOk).outcome =
        Outcome.failed
          "Could not find Slack user and no fallback channel configured") :=
  dm_unresolved_fallback_or_fail cfgDM envLookupNotOk wrSample [jobSample]
    "sk-ant" "summary text" (by decide) (by decide) (by decide) (by decide)
    (by decide) rfl rfl (by decide) (by decide) rfl (Or.inl (by decide))
    (Or.inr rfl)

/-- C9: `lookupSlackUserByEmail` maps every API-level non-ok response to
`null` (`Except.ok none`) instead of raising, so a non-ok lookup response —
invalid authentication, rate limiting, or a genuinely missing user — makes
the whole run behave exactly as a user-not-found response does: it is routed
to the fallback-channel branch or the resolution-failure branch of DM mode,
never to a distinct transport-error failure. -/
theorem lookup_nonok_treated_as_not_found (cfg : Config) (env : Env)
    (r : LookupResponse) (hr : env.lookupResult = Except.ok r)
    (hok : r.ok = false) :
    lookupSlackUserByEmail env.lookupResult = Except.ok none ∧
    run cfg env =
      run cfg { env with lookupResult := Except.ok ⟨true, none⟩ } := by
  have h1 : lookupSlackUserByEmail env.lookupResult = Except.ok none := by
    rw [hr]
    unfold lookupSlackUserByEmail
    simp [Except.map, hok]
  have h2 : lookupSlackUserByEmail
      ({ env with lookupResult := Except.ok ⟨true, none⟩ } : Env).lookupResult =
      Except.ok none := rfl
  refine ⟨h1, ?_⟩
  unfold run
  rw [h1, h2]

theorem lookup_nonok_treated_as_not_found_witness :
    lookupSlackUserByEmail envLookupNotOk.lookupResult = Except.ok none ∧
    run cfgDM envLookupNotOk =
      run cfgDM { envLookupNotOk with lookupResult := Except.ok ⟨true, none⟩ } :=
  lookup_nonok_treated_as_not_found cfgDM envLookupNotOk ⟨false, none⟩ rfl rfl
